import Mathlib

/-!
Verification of the session-state / navigation / chart-dispatch core of
`src/Streamlit.py` (Retail Analytics Dashboard).  The Python module keeps one
mutable Streamlit session state; here it is embedded as an explicit state
record threaded through pure transition functions, with the external Neo4j
database modelled as an oracle argument and pandas DataFrames as a `Table`
record (ordered column list plus ordered rows of (column, scalar) pairs).
-/

/-- Scalar value of a result-table cell: string, number, or null
(spec section 3, "Result Table"). Numbers are modelled as integers; the
claims under verification never depend on fractional values. -/
inductive Cell
  | str (s : String)
  | num (n : Int)
  | null
deriving DecidableEq

/-- One record as returned by neo4j `record.data()`: an ordered mapping from
column name to scalar value. -/
def Row : Type := List (String × Cell)

instance : DecidableEq Row := by
  unfold Row
  infer_instance

/-- Embedding of a pandas DataFrame as used by `Streamlit.py`: ordered column
names plus the list of records it was built from. -/
structure Table where
  cols : List String
  rows : List Row
deriving DecidableEq

/-- Column membership, `c in df.columns`. -/
def Table.hasCol (t : Table) (c : String) : Bool := t.cols.contains c

/-- Emptiness test `df.empty` of pandas: true when either axis has length 0. -/
def Table.isEmpty (t : Table) : Bool := t.rows.isEmpty || t.cols.isEmpty

/-- Column list of `pd.DataFrame(data)` for a list of records: the keys in
order of first appearance across the records. -/
def addCols (acc : List String) (ks : List String) : List String :=
  ks.foldl (fun a k => if a.contains k then a else a ++ [k]) acc

/-- Columns of a record list, in order of first appearance. -/
def columnsOf (recs : List Row) : List String :=
  recs.foldl (fun a r => addCols a (r.map Prod.fst)) []

/-- DataFrame built in `run_neo4j_query` lines 56-60: `pd.DataFrame()` when
the record list is empty, `pd.DataFrame(data)` otherwise (both cases coincide
here, since `columnsOf [] = []`). -/
def dataFrameOfRecords (recs : List Row) : Table :=
  { cols := columnsOf recs, rows := recs }

/-- Python dict update `d[k] = v` on an insertion-ordered association list:
replace the value in place when the key exists, append otherwise. -/
def dictInsert (d : List (String × Table)) (k : String) (v : Table) :
    List (String × Table) :=
  if d.any (fun p => p.1 == k) then
    d.map (fun p => if p.1 == k then (k, v) else p)
  else
    d ++ [(k, v)]

/-- Value of `st.session_state.current_page`, lines 18-19: "Home" or
"Category" (only these two strings are ever assigned). -/
inductive Page
  | Home
  | Category
deriving DecidableEq

/-- The Streamlit session state initialised at lines 17-29: navigation
position, the responses mapping, the connection flag and the driver handle
(modelled as an opaque numeric handle id). The Python attribute `section` is
a Lean keyword, so the field is named `sect`. -/
structure AppState where
  current_page : Page
  category : Option String
  sect : Option String
  responses : List (String × Table)
  neo4j_connected : Bool
  neo4j_driver : Option Nat
deriving DecidableEq

/-- Initial session state, lines 17-29: Home page, no category, no section,
empty responses, disconnected, no driver. -/
def initState : AppState :=
  { current_page := Page.Home, category := none, sect := none,
    responses := [], neo4j_connected := false, neo4j_driver := none }

/-- Function `navigate_to_home`, lines 66-69. -/
def navigate_to_home (s : AppState) : AppState :=
  { s with current_page := Page.Home, category := none, sect := none }

/-- Function `navigate_to_category`, lines 71-74. -/
def navigate_to_category (c : String) (s : AppState) : AppState :=
  { s with current_page := Page.Category, category := some c, sect := none }

/-- Function `navigate_to_section`, lines 76-77: sets only the section
field, touching nothing else. -/
def navigate_to_section (x : String) (s : AppState) : AppState :=
  { s with sect := some x }

/-- Back-to-sections handler, lines 1317-1320: unconditionally clears the
section field (the code performs `st.session_state.section = None` with no
precondition check and no error path). -/
def back_to_sections (s : AppState) : AppState :=
  { s with sect := none }

/-- The four navigation operations of the controller. -/
inductive NavOp
  | goHome
  | selectCategory (c : String)
  | selectSection (x : String)
  | backToSections
deriving DecidableEq

/-- One navigation step: dispatch to the transition function of the code. -/
def navStep (op : NavOp) (s : AppState) : AppState :=
  match op with
  | NavOp.goHome => navigate_to_home s
  | NavOp.selectCategory c => navigate_to_category c s
  | NavOp.selectSection x => navigate_to_section x s
  | NavOp.backToSections => back_to_sections s

/-- Run a sequence of navigation operations from a state. -/
def navRun (ops : List NavOp) (s : AppState) : AppState :=
  ops.foldl (fun st op => navStep op st) s

/-- The navigation invariant of the spec: a selected section implies a
selected category and the Category page. -/
def navInvariant (s : AppState) : Bool :=
  !s.sect.isSome || (s.category.isSome && (s.current_page == Page.Category))

/-- An operation is guarded in a state when it is `selectSection` only if a
category is currently selected (the precondition the spec attaches to
`selectSection`); every other operation is unconditionally guarded. -/
def guardedStep (op : NavOp) (s : AppState) : Bool :=
  match op with
  | NavOp.selectSection _ => s.category.isSome
  | _ => true

/-- A sequence of operations is guarded from a state when each step is
guarded in the state it is applied to. -/
def guardedFrom (s : AppState) : List NavOp → Bool
  | [] => true
  | op :: ops => guardedStep op s && guardedFrom (navStep op s) ops

/-- Strengthened inductive invariant: a selected category implies the
Category page, and a selected section implies a selected category. -/
def strongInv (s : AppState) : Bool :=
  (!s.category.isSome || (s.current_page == Page.Category)) &&
    (!s.sect.isSome || s.category.isSome)

lemma strongInv_implies_navInvariant (s : AppState) (h : strongInv s = true) :
    navInvariant s = true := by
  unfold strongInv navInvariant at *
  rcases s with ⟨p, c, x, r, b, d⟩
  cases c <;> cases x <;> simp_all

lemma strongInv_step (op : NavOp) (s : AppState) (h : strongInv s = true)
    (hg : guardedStep op s = true) : strongInv (navStep op s) = true := by
  rcases s with ⟨p, c, x, r, b, d⟩
  cases op with
  | goHome => simp [navStep, navigate_to_home, strongInv]
  | selectCategory c2 => simp [navStep, navigate_to_category, strongInv]
  | selectSection x2 =>
      unfold strongInv at *
      unfold guardedStep at hg
      cases c <;> simp_all [navStep, navigate_to_section]
  | backToSections =>
      unfold strongInv at *
      cases c <;> simp_all [navStep, back_to_sections]

lemma strongInv_run (ops : List NavOp) (s : AppState) (h : strongInv s = true)
    (hg : guardedFrom s ops = true) : strongInv (navRun ops s) = true := by
  induction ops generalizing s with
  | nil => simpa [navRun] using h
  | cons op ops ih =>
      unfold guardedFrom at hg
      rcases Bool.and_eq_true_iff.mp hg with ⟨hg1, hg2⟩
      have h2 := strongInv_step op s h hg1
      have : navRun (op :: ops) s = navRun ops (navStep op s) := by
        simp [navRun]
      rw [this]
      exact ih (navStep op s) h2 hg2

lemma guardedFrom_append (s : AppState) (pre suf : List NavOp)
    (h : guardedFrom s (pre ++ suf) = true) : guardedFrom s pre = true := by
  induction pre generalizing s with
  | nil => simp [guardedFrom]
  | cons op ops ih =>
      rw [List.cons_append] at h
      simp only [guardedFrom] at h ⊢
      rcases Bool.and_eq_true_iff.mp h with ⟨h1, h2⟩
      exact Bool.and_eq_true_iff.mpr ⟨h1, ih (navStep op s) h2⟩

/-- C1 counterexample: calling `selectSection` as the very first operation
from the initial state (no category selected) leaves the state with a
selected section, no selected category, and the Home page —
`navigate_to_section` (lines 76-77) sets only the section field, so the
claimed invariant fails after this call. -/
theorem nav_invariant_counterexample :
    (navRun [NavOp.selectSection "Customer Journey Evolution"] initState).sect
        = some "Customer Journey Evolution" ∧
    (navRun [NavOp.selectSection "Customer Journey Evolution"] initState).category
        = none ∧
    (navRun [NavOp.selectSection "Customer Journey Evolution"] initState).current_page
        = Page.Home ∧
    navInvariant (navRun [NavOp.selectSection "Customer Journey Evolution"] initState)
        = false := by
  decide

/-- C1 amended: after every call of any finite sequence of navigation
operations starting from the initial state, the invariant "selectedSection
non-null implies selectedCategory non-null and currentPage = Category"
holds, provided every `selectSection` in the sequence is issued while a
category is selected (the guard the UI enforces); the unguarded
`selectSection` case violates the invariant, as the counterexample shows. -/
theorem nav_invariant_guarded (ops pre suf : List NavOp)
    (hsplit : ops = pre ++ suf) (hg : guardedFrom initState ops = true) :
    navInvariant (navRun pre initState) = true := by
  subst hsplit
  have h1 : guardedFrom initState pre = true := guardedFrom_append _ _ _ hg
  have h0 : strongInv initState = true := by decide
  exact strongInv_implies_navInvariant _ (strongInv_run pre initState h0 h1)

/-- C1 amended, witness: the guarded sequence select category then section
then back then home keeps the invariant at the prefix ending after
`selectSection`. -/
theorem nav_invariant_guarded_witness :
    navInvariant (navRun
      [NavOp.selectCategory "Demand Trends & Seasonality",
       NavOp.selectSection "Seasonal Effects"] initState) = true :=
  nav_invariant_guarded
    [NavOp.selectCategory "Demand Trends & Seasonality",
     NavOp.selectSection "Seasonal Effects", NavOp.backToSections,
     NavOp.goHome]
    [NavOp.selectCategory "Demand Trends & Seasonality",
     NavOp.selectSection "Seasonal Effects"]
    [NavOp.backToSections, NavOp.goHome]
    rfl (by decide)

/-- Outcome type for a navigation action that the spec claims can fail. -/
inductive NavOutcome
  | ok (s : AppState)
  | invalidTransition
deriving DecidableEq

/-- The back-to-sections handler's outcome, lines 1317-1320: the code is a
plain assignment with no validation, so the outcome is always `ok`; there is
no InvalidTransition error anywhere in the source. -/
def back_to_sections_run (s : AppState) : NavOutcome :=
  NavOutcome.ok (back_to_sections s)

/-- Visibility of the "Back to Sections" button: `category_page` renders it
only in the `else` branch of `if st.session_state.section is None`
(lines 863, 879, 1318), hence only when a section is selected. -/
def back_button_shown (s : AppState) : Bool := s.sect.isSome

/-- C5 counterexample: in the initial state `selectedSection` is null, yet
invoking the back-to-sections handler there does not fail with
InvalidTransition — the code has no error path and simply returns a state. -/
theorem back_to_sections_no_error_counterexample :
    initState.sect = none ∧
    back_to_sections_run initState ≠ NavOutcome.invalidTransition ∧
    back_to_sections_run initState = NavOutcome.ok initState := by
  decide

/-- C5 amended: backToSections never fails and no InvalidTransition error
exists in the code; instead the UI renders the Back to Sections control only
when a section is selected, so the null-section case cannot be invoked from
the page; invoked from Category/Section it clears only the section,
retaining the selected category and the current page. -/
theorem back_to_sections_amended (s : AppState) (x : String)
    (h : s.sect = some x) :
    back_button_shown s = true ∧
    back_to_sections_run s = NavOutcome.ok { s with sect := none } ∧
    (back_to_sections s).category = s.category ∧
    (back_to_sections s).current_page = s.current_page ∧
    (∀ s2 : AppState, s2.sect = none → back_button_shown s2 = false) := by
  refine ⟨?_, rfl, rfl, rfl, ?_⟩
  · simp [back_button_shown, h]
  · intro s2 h2
    simp [back_button_shown, h2]

/-- C5 amended, witness: from a concrete Category/Section state. -/
theorem back_to_sections_amended_witness :
    back_button_shown (navigate_to_section "Seasonal Effects"
        (navigate_to_category "Demand Trends & Seasonality" initState)) = true ∧
    back_to_sections_run (navigate_to_section "Seasonal Effects"
        (navigate_to_category "Demand Trends & Seasonality" initState))
      = NavOutcome.ok { (navigate_to_section "Seasonal Effects"
        (navigate_to_category "Demand Trends & Seasonality" initState)) with
          sect := none } := by
  have h := back_to_sections_amended
    (navigate_to_section "Seasonal Effects"
      (navigate_to_category "Demand Trends & Seasonality" initState))
    "Seasonal Effects" (by decide)
  exact ⟨h.1, h.2.1⟩

/-- C9: `navigate_to_section` (lines 76-77) mutates only the section field:
page, category, responses, connection flag and driver handle are unchanged,
and the section becomes the given value. -/
theorem navigate_to_section_frame (s : AppState) (x : String) :
    (navigate_to_section x s).current_page = s.current_page ∧
    (navigate_to_section x s).category = s.category ∧
    (navigate_to_section x s).responses = s.responses ∧
    (navigate_to_section x s).neo4j_connected = s.neo4j_connected ∧
    (navigate_to_section x s).neo4j_driver = s.neo4j_driver ∧
    (navigate_to_section x s).sect = some x :=
  ⟨rfl, rfl, rfl, rfl, rfl, rfl⟩

/-- Lookup in an insertion-ordered association list (Python dict access). -/
def lookupKey (d : List (String × Table)) (k : String) : Option Table :=
  match d with
  | [] => none
  | p :: rest => if p.1 == k then some p.2 else lookupKey rest k

lemma lookupKey_replace (d : List (String × Table)) (k : String) (v : Table)
    (h : d.any (fun p => p.1 == k) = true) :
    lookupKey (d.map (fun p => if p.1 == k then (k, v) else p)) k = some v := by
  induction d with
  | nil => simp at h
  | cons p rest ih =>
      by_cases hp : (p.1 == k) = true
      · simp [lookupKey, hp]
      · simp only [List.any_cons, Bool.or_eq_true] at h
        have hpf : (p.1 == k) = false := Bool.eq_false_iff.mpr hp
        have h2 : rest.any (fun p => p.1 == k) = true := by
          rcases h with h | h
          · exact absurd h hp
          · exact h
        have hrec := ih h2
        simp only [List.map_cons, hpf, Bool.false_eq_true, if_false, lookupKey]
        exact hrec

lemma lookupKey_append_miss (d : List (String × Table)) (k : String) (v : Table)
    (h : d.any (fun p => p.1 == k) = false) :
    lookupKey (d ++ [(k, v)]) k = some v := by
  induction d with
  | nil => simp [lookupKey]
  | cons p rest ih =>
      simp only [List.any_cons, Bool.or_eq_false_iff] at h
      simp [lookupKey, h.1, ih h.2]

lemma dictInsert_lookup (d : List (String × Table)) (k : String) (v : Table) :
    lookupKey (dictInsert d k v) k = some v := by
  unfold dictInsert
  by_cases h : d.any (fun p => p.1 == k) = true
  · simpa [h] using lookupKey_replace d k v h
  · have h2 : d.any (fun p => p.1 == k) = false := Bool.eq_false_iff.mpr h
    simpa [h2] using lookupKey_append_miss d k v h2

/-- Observable outcome of `run_neo4j_query` (lines 48-63): the value the
function returns (`none` stands for Python `None`), the error messages shown
via `st.error`, and whether the external database session was contacted at
all. -/
structure QueryOutcome where
  result : Option Table
  errors : List String
  contacted : Bool
deriving DecidableEq

/-- Function `run_neo4j_query`, lines 48-63. The external database is the
oracle `db`: for a query string it either yields the record stream read to
completion, or a transport or execution error with its message. With no
connection the function returns immediately without touching the driver;
otherwise the record list is materialized into a DataFrame (empty list gives
`pd.DataFrame()`, a zero-row table), and an exception is caught, shown as
"Query execution failed: ..." and turned into a `None` return. -/
def run_neo4j_query (st : AppState) (db : String → Except String (List Row))
    (query : String) : QueryOutcome :=
  if !st.neo4j_connected || st.neo4j_driver.isNone then
    { result := none,
      errors := ["Not connected to Neo4j. Please connect first."],
      contacted := false }
  else
    match db query with
    | Except.error e =>
        { result := none, errors := ["Query execution failed: " ++ e],
          contacted := true }
    | Except.ok recs =>
        { result := some (dataFrameOfRecords recs), errors := [],
          contacted := true }

/-- Composite key used at line 896 of `category_page`:
category, section and question joined by " | ". -/
def compositeKey (c s q : String) : String :=
  c ++ " | " ++ s ++ " | " ++ q

/-- The run-analysis handler of `category_page`, lines 891-899: execute the
query, and only when the result is not `None` and not empty store it in the
responses mapping under the composite key (a `None` or empty result leaves
the session state untouched). -/
def run_and_store (st : AppState) (db : String → Except String (List Row))
    (key query : String) : AppState × QueryOutcome :=
  let out := run_neo4j_query st db query
  match out.result with
  | some t =>
      if !t.isEmpty then
        ({ st with responses := dictInsert st.responses key t }, out)
      else
        (st, out)
  | none => (st, out)

/-- C6: executing any query while the connection flag is down always fails
with the not-connected error, returns `None`, and never contacts the
external database (lines 48-51 return before the driver is used). -/
theorem query_disconnected_not_contacted (st : AppState)
    (db : String → Except String (List Row)) (q : String)
    (h : st.neo4j_connected = false) :
    run_neo4j_query st db q =
      { result := none,
        errors := ["Not connected to Neo4j. Please connect first."],
        contacted := false } := by
  simp [run_neo4j_query, h]

/-- Oracle standing for a database that would answer every query with an
empty record stream. -/
def trivialDb : String → Except String (List Row) := fun _ => Except.ok []

/-- C6 witness: the initial (disconnected) state with a concrete query. -/
theorem query_disconnected_not_contacted_witness :
    run_neo4j_query initState trivialDb "RETURN 1 AS test" =
      { result := none,
        errors := ["Not connected to Neo4j. Please connect first."],
        contacted := false } :=
  query_disconnected_not_contacted initState trivialDb "RETURN 1 AS test" rfl

/-- C7: when the external system fails, the failure is surfaced as a single
message that wraps the original error text, the function returns `None`, and
the run-and-store step leaves the whole session state — in particular the
responses mapping — unchanged. -/
theorem query_error_atomic (st : AppState)
    (db : String → Except String (List Row)) (key query e : String)
    (hc : st.neo4j_connected = true) (hd : st.neo4j_driver.isSome = true)
    (he : db query = Except.error e) :
    run_neo4j_query st db query =
      { result := none, errors := ["Query execution failed: " ++ e],
        contacted := true } ∧
    (run_and_store st db key query).1 = st ∧
    (run_and_store st db key query).1.responses = st.responses := by
  obtain ⟨dr, hdr⟩ := Option.isSome_iff_exists.mp hd
  refine ⟨?_, ?_, ?_⟩
  · simp [run_neo4j_query, hc, hdr, he]
  · simp [run_and_store, run_neo4j_query, hc, hdr, he]
  · simp [run_and_store, run_neo4j_query, hc, hdr, he]

/-- A stored one-row table used by the concrete scenarios below. -/
def tableA : Table :=
  { cols := ["department"], rows := [[("department", Cell.str "produce")]] }

/-- Composite key of a concrete catalog entry (category, section, question
of lines 755-780). -/
def keyCE : String :=
  compositeKey "Performance Metrics & Sales KPIs"
    "Resource allocation and marketing focus"
    "Which departments contribute most to overall order volume?"

/-- A connected session state that already holds a response under `keyCE`. -/
def stConnected : AppState :=
  { current_page := Page.Category,
    category := some "Performance Metrics & Sales KPIs",
    sect := some "Resource allocation and marketing focus",
    responses := [(keyCE, tableA)],
    neo4j_connected := true, neo4j_driver := some 1 }

/-- Oracle for a database on which the query has an empty match set. -/
def emptyDb : String → Except String (List Row) := fun _ => Except.ok []

/-- C7 witness: a concrete failing oracle on the connected state. -/
def failDb : String → Except String (List Row) :=
  fun _ => Except.error "Invalid input"

theorem query_error_atomic_witness :
    run_neo4j_query stConnected failDb "MATCH (n) RETURN n" =
      { result := none,
        errors := ["Query execution failed: " ++ "Invalid input"],
        contacted := true } ∧
    (run_and_store stConnected failDb keyCE "MATCH (n) RETURN n").1
      = stConnected :=
  ⟨(query_error_atomic stConnected failDb keyCE "MATCH (n) RETURN n"
      "Invalid input" rfl rfl rfl).1,
   (query_error_atomic stConnected failDb keyCE "MATCH (n) RETURN n"
      "Invalid input" rfl rfl rfl).2.1⟩

/-- C3 counterexample: on a connected state holding a previous response
under the composite key, a query whose match set is empty does succeed with
a zero-row table (no failure), but — contrary to the claim — the zero-row
table is not stored: line 895 guards the store with `not result_df.empty`,
so the prior entry survives unreplaced. -/
theorem empty_result_not_stored_counterexample :
    (run_neo4j_query stConnected emptyDb "MATCH (n:X) RETURN n").result
      = some (dataFrameOfRecords []) ∧
    (dataFrameOfRecords []).rows = [] ∧
    (run_neo4j_query stConnected emptyDb "MATCH (n:X) RETURN n").errors = [] ∧
    (run_and_store stConnected emptyDb keyCE "MATCH (n:X) RETURN n").1.responses
      = [(keyCE, tableA)] ∧
    tableA ≠ dataFrameOfRecords [] := by
  decide

/-- C3 amended: a successful query execution yields the materialized table;
when that table is non-empty it is stored under the composite key, fully
replacing any prior entry (lookup after the dict update returns the new
table); when the match set is empty the execution still succeeds with a
zero-row table, but the table is not stored and the prior entry is
retained. -/
theorem query_store_amended (st : AppState)
    (db : String → Except String (List Row)) (key query : String)
    (recs : List Row)
    (hc : st.neo4j_connected = true) (hd : st.neo4j_driver.isSome = true)
    (hq : db query = Except.ok recs) :
    (run_neo4j_query st db query).result = some (dataFrameOfRecords recs) ∧
    ((dataFrameOfRecords recs).isEmpty = false →
      (run_and_store st db key query).1.responses
        = dictInsert st.responses key (dataFrameOfRecords recs)) ∧
    ((dataFrameOfRecords recs).isEmpty = true →
      (run_and_store st db key query).1 = st) ∧
    (∀ d k2 v, lookupKey (dictInsert d k2 v) k2 = some v) := by
  obtain ⟨dr, hdr⟩ := Option.isSome_iff_exists.mp hd
  refine ⟨?_, ?_, ?_, fun d k2 v => dictInsert_lookup d k2 v⟩
  · simp [run_neo4j_query, hc, hdr, hq]
  · intro hne
    simp [run_and_store, run_neo4j_query, hc, hdr, hq, hne]
  · intro hemp
    simp [run_and_store, run_neo4j_query, hc, hdr, hq, hemp]

/-- Oracle for a database returning one department row. -/
def oneRowDb : String → Except String (List Row) :=
  fun _ => Except.ok [[("department", Cell.str "dairy"),
                       ("orderCount", Cell.num 50),
                       ("pctOfTotalOrders", Cell.num 50)]]

/-- C3 amended, witness: a concrete non-empty success on the connected
state replaces the stored entry for the key. -/
theorem query_store_amended_witness :
    (run_neo4j_query stConnected oneRowDb "q").result
      = some (dataFrameOfRecords [[("department", Cell.str "dairy"),
          ("orderCount", Cell.num 50), ("pctOfTotalOrders", Cell.num 50)]]) ∧
    (run_and_store stConnected oneRowDb keyCE "q").1.responses
      = dictInsert stConnected.responses keyCE
          (dataFrameOfRecords [[("department", Cell.str "dairy"),
            ("orderCount", Cell.num 50), ("pctOfTotalOrders", Cell.num 50)]]) := by
  have h := query_store_amended stConnected oneRowDb keyCE "q"
    [[("department", Cell.str "dairy"), ("orderCount", Cell.num 50),
      ("pctOfTotalOrders", Cell.num 50)]] rfl rfl rfl
  exact ⟨h.1, h.2.1 (by decide)⟩

/-- Observable outcome of `connect_to_neo4j` (lines 32-45): the resulting
session state, the boolean the function returns, the error messages shown,
and the list of driver handles closed during the call. -/
structure ConnectOutcome where
  state : AppState
  returned : Bool
  errors : List String
  closed : List Nat
deriving DecidableEq

/-- Function `connect_to_neo4j`, lines 32-45. Driver creation is modelled
by a fresh opaque handle id, and the `RETURN 1 AS test` verification round
trip by the `verify` oracle. On success the new driver is stored and the
connected flag set; on failure an error is shown and only the connected
flag is cleared. No path closes any previously stored handle. -/
def connect_to_neo4j (st : AppState) (newDriver : Nat)
    (verify : Except String Unit) : ConnectOutcome :=
  match verify with
  | Except.ok _ =>
      { state := { st with neo4j_driver := some newDriver,
                           neo4j_connected := true },
        returned := true, errors := [], closed := [] }
  | Except.error e =>
      { state := { st with neo4j_connected := false },
        returned := false,
        errors := ["Failed to connect to Neo4j: " ++ e], closed := [] }

/-- Disconnect handler, lines 1344-1351: closes the stored driver when one
is present, then clears the flag and the handle (shown for contrast with
`connect_to_neo4j`, which closes nothing). -/
def disconnect_neo4j (st : AppState) : AppState × List Nat :=
  match st.neo4j_driver with
  | some d =>
      ({ st with neo4j_connected := false, neo4j_driver := none }, [d])
  | none =>
      ({ st with neo4j_connected := false, neo4j_driver := none }, [])

/-- C10: a successful connect while a driver handle is already stored
silently overwrites the handle with the new driver and closes nothing — in
particular the previous handle is never closed or released. -/
theorem connect_overwrites_driver (st : AppState) (d newDriver : Nat)
    (h : st.neo4j_driver = some d) :
    (connect_to_neo4j st newDriver (Except.ok ())).state.neo4j_driver
      = some newDriver ∧
    (connect_to_neo4j st newDriver (Except.ok ())).state.neo4j_connected
      = true ∧
    (connect_to_neo4j st newDriver (Except.ok ())).returned = true ∧
    (connect_to_neo4j st newDriver (Except.ok ())).closed = [] ∧
    d ∉ (connect_to_neo4j st newDriver (Except.ok ())).closed := by
  refine ⟨rfl, rfl, rfl, rfl, ?_⟩
  simp [connect_to_neo4j]

/-- C10 witness: reconnecting on the connected state (which stores handle 1)
with fresh handle 2. -/
theorem connect_overwrites_driver_witness :
    (connect_to_neo4j stConnected 2 (Except.ok ())).state.neo4j_driver
      = some 2 ∧
    (connect_to_neo4j stConnected 2 (Except.ok ())).closed = [] ∧
    1 ∉ (connect_to_neo4j stConnected 2 (Except.ok ())).closed := by
  have h := connect_overwrites_driver stConnected 1 2 rfl
  exact ⟨h.1, h.2.2.2.1, h.2.2.2.2⟩

/-- Whitespace characters removed by Python `str.strip()`. -/
def isPySpace (c : Char) : Bool :=
  c == ' ' || c == '\t' || c == '\n' || c == '\r' || c == '\x0b' || c == '\x0c'

/-- Python `str.strip()`: drop leading and trailing whitespace. -/
def pyStrip (s : String) : String :=
  String.mk (((s.data.dropWhile isPySpace).reverse.dropWhile isPySpace).reverse)

/-- Python `s.startswith(p)`. -/
def strStartsWith (s p : String) : Bool :=
  p.data.isPrefixOf s.data

/-- The static catalog `questions` of lines 80-780, flattened to
(category, section, question-text) triples in source order (the Cypher
query templates are opaque strings handed to the oracle and are not needed
by any claim). -/
def catalog : List (String × String × String) := [
  ("Customer Lifecycle & Behavior", "Customer Journey Evolution",
   "How does the average cart size evolve over a customer's lifetime (by order number)?"),
  ("Customer Lifecycle & Behavior", "Customer Journey Evolution",
   "What's the typical progression of departments that new customers explore over their first 5 orders?"),
  ("Customer Lifecycle & Behavior", "Customer Journey Evolution",
   "How many aisles do new clients usually browse throughout their first 5 orders?"),
  ("Customer Lifecycle & Behavior", "Customer Journey Evolution",
   "How does order hour preference evolve for departments over time?"),
  ("Customer Lifecycle & Behavior", "Customer Journey Evolution",
   "How does customer/basket share vary across product categories over time?"),
  ("Customer Lifecycle & Behavior", "Customer Retention & Segmentation",
   "How does customer retention vary over time based on their preferred shopping department?"),
  ("Customer Lifecycle & Behavior", "Customer Retention & Segmentation",
   "Which products play a central role in the early purchasing patterns of retained customers?"),
  ("Customer Lifecycle & Behavior", "Customer Retention & Segmentation",
   "Can we identify distinct customer segments based on ordering day/time patterns?"),
  ("Customer Lifecycle & Behavior", "Purchase Pattern Transitions",
   "Which products are most frequently transitioned into by loyal customers?"),
  ("Customer Lifecycle & Behavior", "Purchase Pattern Transitions",
   "Which products serve as 'gateway purchases' that lead to exploration of new departments?"),
  ("Reorder Behavior & Loyalty Drivers", "Reorder Dynamics",
   "Are customers reordering items popular with others in their first order?"),
  ("Reorder Behavior & Loyalty Drivers", "Reorder Dynamics",
   "How does reorder frequency vary with days_since_prior_order for frequently purchased items?"),
  ("Reorder Behavior & Loyalty Drivers", "Reorder Dynamics",
   "What's the relationship between a product's department and reorder likelihood?"),
  ("Reorder Behavior & Loyalty Drivers", "Promotions & Reorder Uplift",
   "Which products are most often added to cart in the first 3 positions?"),
  ("Reorder Behavior & Loyalty Drivers", "Promotions & Reorder Uplift",
   "Do users prefer reordering familiar products early or exploring new ones in the first 3 cart additions?"),
  ("Reorder Behavior & Loyalty Drivers", "Promotions & Reorder Uplift",
   "Which product categories have the highest uplift in sales?"),
  ("Product Affinity, Graphs & Recommendations", "Co-Purchase Patterns & Product Graphs",
   "What are the top product pairings based on co-purchase frequency?"),
  ("Product Affinity, Graphs & Recommendations", "Co-Purchase Patterns & Product Graphs",
   "What products have the highest cross-department purchase correlation?"),
  ("Product Affinity, Graphs & Recommendations", "Co-Purchase Patterns & Product Graphs",
   "Which items act as a 'bridge' between different product communities?"),
  ("Product Affinity, Graphs & Recommendations", "Community Detection & Recommendation Modeling",
   "Do high-centrality products (high betweenness) make better recommendations than low-centrality ones?"),
  ("Demand Trends & Seasonality", "Product Lifecycle & Decline",
   "Which products show the sharpest drop in demand over time?"),
  ("Demand Trends & Seasonality", "Seasonal Effects",
   "Which product categories exhibit strong day-of-week effects?"),
  ("Demand Trends & Seasonality", "Seasonal Effects",
   "What is the day-of-week effect on order size across different product categories?"),
  ("Supply Chain & Delivery Performance", "Delivery Success Factors",
   "Which suppliers have the highest delivery success rates?"),
  ("Supply Chain & Delivery Performance", "Delivery Success Factors",
   "What proportion of shipments are in transit, delivered and dispatched?"),
  ("Supply Chain & Delivery Performance", "Efficiency Drivers",
   "What is the average delivery delay (in days) for shipments by category?"),
  ("Supply Chain & Delivery Performance", "Efficiency Drivers",
   "How does product category mix affect on-time delivery?"),
  ("Supply Chain & Delivery Performance", "Efficiency Drivers",
   "How does supply chain performance vary with seasonal demand fluctuations?"),
  ("Performance Metrics & Sales KPIs", "Priority stocking & display strategy",
   "Which products connect the widest variety of departments and have high co-purchase influence?"),
  ("Performance Metrics & Sales KPIs", "Resource allocation and marketing focus",
   "Which departments contribute most to overall order volume?")]

/-- Question texts of the catalog, in source order. -/
def catalogQuestions : List String := catalog.map (fun t => t.2.2)

/-- Identity of each chart the dispatch chain of `category_page`
(lines 901-1315) can render, one constructor per `if` block, in source
order. -/
inductive Chart
  | pieCartBehavior
  | barDeptProgression
  | barAisles
  | heatHourDept
  | heatBasketShare
  | lineRetention
  | barCentralProducts
  | pieTimeSegments
  | barRetainedUsers
  | barGatewayProducts
  | barFirstOrderPct
  | barReorderDays
  | barReorderRate
  | barUplift
  | barPairs
  | stripCrossDept
  | barBridge
  | pieCentrality
  | barVolatility
  | barDayOfWeekCart
  | scatterInfluence
  | pieDeptContribution
  | pieShipmentStatus
  | barDelay
  | barDeliveryStatus
  | lineSeasonal
deriving DecidableEq

/-- One `if` block of the dispatch chain: the question literal of its
`question.strip().startswith(...)` test, whether it additionally tests
`not result_df.empty`, the columns its condition requires to be present,
the columns the chart-building body reads (a body column absent from the
table raises an uncaught pandas KeyError), and the chart it renders. -/
structure DispatchEntry where
  question : String
  guardNonempty : Bool
  guardCols : List String
  bodyCols : List String
  chart : Chart
deriving DecidableEq

/-- Dispatch block of lines 902-914. -/
def entryCartBehavior : DispatchEntry :=
  { question := "How does the average cart size evolve over a customer's lifetime (by order number)?",
    guardNonempty := false, guardCols := ["CartBehavior"],
    bodyCols := ["CartBehavior"], chart := Chart.pieCartBehavior }

/-- Dispatch block of lines 916-927. -/
def entryDeptProgression : DispatchEntry :=
  { question := "What's the typical progression of departments that new customers explore over their first 5 orders?",
    guardNonempty := true, guardCols := ["orderNum", "departmentName", "freq"],
    bodyCols := ["orderNum", "departmentName", "freq"],
    chart := Chart.barDeptProgression }

/-- Dispatch block of lines 929-942. -/
def entryAisles : DispatchEntry :=
  { question := "How many aisles do new clients usually browse throughout their first 5 orders?",
    guardNonempty := false, guardCols := ["aisleName", "frequency"],
    bodyCols := ["frequency", "aisleName"], chart := Chart.barAisles }

/-- Dispatch block of lines 944-956. -/
def entryHourDept : DispatchEntry :=
  { question := "How does order hour preference evolve for departments over time?",
    guardNonempty := false, guardCols := ["hour", "department", "freq"],
    bodyCols := ["hour", "department", "freq"], chart := Chart.heatHourDept }

/-- Dispatch block of lines 958-971. -/
def entryBasketShare : DispatchEntry :=
  { question := "How does customer/basket share vary across product categories over time?",
    guardNonempty := false,
    guardCols := ["dayOfWeek", "department", "basketSharePct"],
    bodyCols := ["dayOfWeek", "department", "basketSharePct"],
    chart := Chart.heatBasketShare }

/-- Dispatch block of lines 973-991. -/
def entryRetention : DispatchEntry :=
  { question := "How does customer retention vary over time based on their preferred shopping department?",
    guardNonempty := false,
    guardCols := ["departmentSegment", "orderNum", "customers"],
    bodyCols := ["departmentSegment", "orderNum", "customers"],
    chart := Chart.lineRetention }

/-- Dispatch block of lines 993-1003. -/
def entryCentralProducts : DispatchEntry :=
  { question := "Which products play a central role in the early purchasing patterns of retained customers?",
    guardNonempty := false, guardCols := ["productName", "pageRankScore"],
    bodyCols := ["pageRankScore", "productName"],
    chart := Chart.barCentralProducts }

/-- Dispatch block of lines 1005-1013. -/
def entryTimeSegments : DispatchEntry :=
  { question := "Can we identify distinct customer segments based on ordering day/time patterns?",
    guardNonempty := false, guardCols := ["timeSegment", "userCount"],
    bodyCols := ["timeSegment", "userCount"], chart := Chart.pieTimeSegments }

/-- Dispatch block of lines 1015-1027. -/
def entryRetainedUsers : DispatchEntry :=
  { question := "Which products are most frequently transitioned into by loyal customers?",
    guardNonempty := false, guardCols := ["productName", "retainedUsers"],
    bodyCols := ["retainedUsers", "productName"],
    chart := Chart.barRetainedUsers }

/-- Dispatch block of lines 1029-1041. -/
def entryGateway : DispatchEntry :=
  { question := "Which products serve as 'gateway purchases' that lead to exploration of new departments?",
    guardNonempty := false, guardCols := ["gatewayProduct", "newDeptCount"],
    bodyCols := ["newDeptCount", "gatewayProduct"],
    chart := Chart.barGatewayProducts }

/-- Dispatch block of lines 1043-1064: no column guard at all; the body
directly sorts on `percentInFirstOrders` and plots `productName` and
`totalOrders`. -/
def entryFirstOrderPct : DispatchEntry :=
  { question := "Are customers reordering items popular with others in their first order?",
    guardNonempty := false, guardCols := [],
    bodyCols := ["percentInFirstOrders", "productName", "totalOrders"],
    chart := Chart.barFirstOrderPct }

/-- Dispatch block of lines 1067-1078: no column guard. -/
def entryReorderDays : DispatchEntry :=
  { question := "How does reorder frequency vary with days_since_prior_order for frequently purchased items?",
    guardNonempty := false, guardCols := [],
    bodyCols := ["avgDaysBetweenReorders", "productName"],
    chart := Chart.barReorderDays }

/-- Dispatch block of lines 1080-1090: no column guard. -/
def entryReorderRate : DispatchEntry :=
  { question := "What's the relationship between a product's department and reorder likelihood?",
    guardNonempty := false, guardCols := [],
    bodyCols := ["department", "reorderRatePct"], chart := Chart.barReorderRate }

/-- Dispatch block of lines 1092-1117: guards only on `product`; the body
also sorts on `avgUpliftPct`. -/
def entryUplift : DispatchEntry :=
  { question := "Which product categories have the highest uplift in sales?",
    guardNonempty := false, guardCols := ["product"],
    bodyCols := ["avgUpliftPct", "product"], chart := Chart.barUplift }

/-- Dispatch block of lines 1119-1133. -/
def entryPairs : DispatchEntry :=
  { question := "What are the top product pairings based on co-purchase frequency?",
    guardNonempty := false,
    guardCols := ["productA", "productB", "timesBoughtTogether"],
    bodyCols := ["productA", "productB", "timesBoughtTogether"],
    chart := Chart.barPairs }

/-- Dispatch block of lines 1135-1157: guards only on non-emptiness. -/
def entryCrossDept : DispatchEntry :=
  { question := "What products have the highest cross-department purchase correlation?",
    guardNonempty := true, guardCols := [],
    bodyCols := ["similarityScore", "deptA", "deptB", "productA", "productB"],
    chart := Chart.stripCrossDept }

/-- Dispatch block of lines 1160-1180: guards only on `productName`. -/
def entryBridge : DispatchEntry :=
  { question := "Which items act as a 'bridge' between different product communities?",
    guardNonempty := false, guardCols := ["productName"],
    bodyCols := ["betweennessScore", "productName", "sourceCommunity"],
    chart := Chart.barBridge }

/-- Dispatch block of lines 1182-1192: guards only on `centralityGroup`. -/
def entryCentrality : DispatchEntry :=
  { question := "Do high-centrality products (high betweenness) make better recommendations than low-centrality ones?",
    guardNonempty := false, guardCols := ["centralityGroup"],
    bodyCols := ["centralityGroup", "totalOrders"],
    chart := Chart.pieCentrality }

/-- Dispatch block of lines 1195-1206: no column guard. -/
def entryVolatility : DispatchEntry :=
  { question := "Which product categories exhibit strong day-of-week effects?",
    guardNonempty := false, guardCols := [],
    bodyCols := ["department", "volatilityPct"], chart := Chart.barVolatility }

/-- Dispatch block of lines 1208-1232. -/
def entryDayOfWeekCart : DispatchEntry :=
  { question := "What is the day-of-week effect on order size across different product categories?",
    guardNonempty := false,
    guardCols := ["department", "highestCartDay", "lowestCartDay",
                  "highestAvgCartSize", "lowestAvgCartSize"],
    bodyCols := ["department", "highestCartDay", "lowestCartDay",
                 "highestAvgCartSize", "lowestAvgCartSize"],
    chart := Chart.barDayOfWeekCart }

/-- Dispatch block of lines 1235-1252: guards only on `pageRank`. -/
def entryInfluence : DispatchEntry :=
  { question := "Which products connect the widest variety of departments and have high co-purchase influence?",
    guardNonempty := false, guardCols := ["pageRank"],
    bodyCols := ["crossDeptConnections", "pageRank", "productName"],
    chart := Chart.scatterInfluence }

/-- Dispatch block of lines 1254-1266. -/
def entryDeptContribution : DispatchEntry :=
  { question := "Which departments contribute most to overall order volume?",
    guardNonempty := false,
    guardCols := ["department", "orderCount", "pctOfTotalOrders"],
    bodyCols := ["department", "orderCount", "pctOfTotalOrders"],
    chart := Chart.pieDeptContribution }

/-- Dispatch block of lines 1268-1276: no column guard. -/
def entryShipmentStatus : DispatchEntry :=
  { question := "What proportion of shipments are in transit, delivered and dispatched?",
    guardNonempty := false, guardCols := [],
    bodyCols := ["shipmentStatus", "shipmentCount"],
    chart := Chart.pieShipmentStatus }

/-- Dispatch block of lines 1278-1289: guards only on `aisleName`. -/
def entryDelay : DispatchEntry :=
  { question := "What is the average delivery delay (in days) for shipments by category?",
    guardNonempty := false, guardCols := ["aisleName"],
    bodyCols := ["aisleName", "avgDelayDays"], chart := Chart.barDelay }

/-- Dispatch block of lines 1291-1303: guards only on `departmentName`. -/
def entryDeliveryStatus : DispatchEntry :=
  { question := "How does product category mix affect on-time delivery?",
    guardNonempty := false, guardCols := ["departmentName"],
    bodyCols := ["departmentName", "shipmentCount", "deliveryStatus"],
    chart := Chart.barDeliveryStatus }

/-- Dispatch block of lines 1305-1315: guards only on `shipmentMonth`. -/
def entrySeasonal : DispatchEntry :=
  { question := "How does supply chain performance vary with seasonal demand fluctuations?",
    guardNonempty := false, guardCols := ["shipmentMonth"],
    bodyCols := ["shipmentMonth", "onTimeRatePct"], chart := Chart.lineSeasonal }

/-- The dispatch chain of `category_page`, lines 901-1315, in source
order. -/
def dispatchTable : List DispatchEntry :=
  [entryCartBehavior, entryDeptProgression, entryAisles, entryHourDept,
   entryBasketShare, entryRetention, entryCentralProducts, entryTimeSegments,
   entryRetainedUsers, entryGateway, entryFirstOrderPct, entryReorderDays,
   entryReorderRate, entryUplift, entryPairs, entryCrossDept, entryBridge,
   entryCentrality, entryVolatility, entryDayOfWeekCart, entryInfluence,
   entryDeptContribution, entryShipmentStatus, entryDelay,
   entryDeliveryStatus, entrySeasonal]

/-- Whether an entry's `question.strip().startswith(...)` test fires for a
question. -/
def fires (q : String) (e : DispatchEntry) : Bool :=
  strStartsWith (pyStrip q) e.question

/-- Effect of one `if` block on a (question, table) pair: no match or a
failed guard skips the block silently; a matched block whose body reads an
absent column raises (modelled as an error value, since nothing in
`category_page` catches it); otherwise the chart is rendered. -/
def entryStep (q : String) (t : Table) (e : DispatchEntry) :
    Except String (Option Chart) :=
  if fires q e then
    if (!e.guardNonempty || !t.isEmpty)
        && e.guardCols.all (fun c => t.hasCol c) then
      if e.bodyCols.all (fun c => t.hasCol c) then
        Except.ok (some e.chart)
      else
        Except.error ("KeyError while rendering: " ++ e.question)
    else Except.ok none
  else Except.ok none

/-- Run the dispatch chain: blocks are evaluated in source order; an
uncaught exception in one block aborts the remaining render. Returns the
charts rendered (the raw table itself was already shown at line 899). -/
def runDispatch (es : List DispatchEntry) (q : String) (t : Table) :
    Except String (List Chart) :=
  match es with
  | [] => Except.ok []
  | e :: rest =>
      match entryStep q t e with
      | Except.error m => Except.error m
      | Except.ok none => runDispatch rest q t
      | Except.ok (some c) =>
          match runDispatch rest q t with
          | Except.error m => Except.error m
          | Except.ok cs => Except.ok (c :: cs)

lemma entryStep_not_fires {q : String} {e : DispatchEntry} (t : Table)
    (h : fires q e = false) : entryStep q t e = Except.ok none := by
  simp [entryStep, h]

lemma runDispatch_skip {q : String} {e : DispatchEntry}
    (es : List DispatchEntry) (t : Table) (h : fires q e = false) :
    runDispatch (e :: es) q t = runDispatch es q t := by
  simp [runDispatch, entryStep_not_fires t h]

lemma runDispatch_length (es : List DispatchEntry) (q : String) (t : Table)
    (l : List Chart) (h : runDispatch es q t = Except.ok l) :
    l.length ≤ (es.filter (fun e => fires q e)).length := by
  induction es generalizing l with
  | nil =>
      simp [runDispatch] at h
      simp [h]
  | cons e rest ih =>
      by_cases hf : fires q e = true
      · simp only [runDispatch] at h
        cases hstep : entryStep q t e with
        | error m => rw [hstep] at h; cases h
        | ok oc =>
            rw [hstep] at h
            cases oc with
            | none =>
                have hle := ih l h
                simp only [List.filter, hf]
                exact Nat.le_succ_of_le hle
            | some c =>
                cases hrest : runDispatch rest q t with
                | error m => rw [hrest] at h; cases h
                | ok cs =>
                    rw [hrest] at h
                    cases h
                    have hle := ih cs hrest
                    simp only [List.filter, hf, List.length_cons]
                    exact Nat.succ_le_succ hle
      · have hff : fires q e = false := Bool.eq_false_iff.mpr hf
        rw [runDispatch_skip rest t hff] at h
        have hle := ih l h
        simpa [List.filter, hff] using hle

deriving instance DecidableEq for Except

set_option maxRecDepth 100000 in
lemma dispatch_entry_unique :
    ∀ q1 ∈ catalogQuestions, ∀ q2 ∈ catalogQuestions, q1 ≠ q2 →
      ∀ e ∈ dispatchTable, ¬(fires q1 e = true ∧ fires q2 e = true) := by
  decide

set_option maxRecDepth 100000 in
lemma dispatch_at_most_one :
    ∀ q ∈ catalogQuestions,
      (dispatchTable.filter (fun e => fires q e)).length ≤ 1 := by
  decide

/-- C2: chart dispatch is a deterministic function of the (question, table)
pair; each dispatch block is keyed by the exact text of the question that
produced the table (the `startswith` literal), so for two distinct catalog
questions — whatever their tables' columns, identical or not — no block
that can act for one ever acts for the other; and for every catalog
question at most one chart renders per result. -/
theorem chart_dispatch_keyed :
    (∀ q : String, ∀ t1 t2 : Table, t1 = t2 →
        runDispatch dispatchTable q t1 = runDispatch dispatchTable q t2) ∧
    (∀ q1 ∈ catalogQuestions, ∀ q2 ∈ catalogQuestions, q1 ≠ q2 →
        ∀ e ∈ dispatchTable, ∀ t1 t2 : Table,
          entryStep q1 t1 e ≠ Except.ok none →
          entryStep q2 t2 e = Except.ok none) ∧
    (∀ q ∈ catalogQuestions, ∀ t : Table, ∀ l : List Chart,
        runDispatch dispatchTable q t = Except.ok l → l.length ≤ 1) := by
  refine ⟨fun q t1 t2 h => by rw [h], ?_, ?_⟩
  · intro q1 h1 q2 h2 hne e he t1 t2 hstep
    have hf1 : fires q1 e = true := by
      by_contra hc
      exact hstep (entryStep_not_fires t1 (Bool.eq_false_iff.mpr hc))
    have hf2 : fires q2 e = false := by
      by_contra hc
      exact dispatch_entry_unique q1 h1 q2 h2 hne e he
        ⟨hf1, eq_true_of_ne_false hc⟩
    exact entryStep_not_fires t2 hf2
  · intro q hq t l h
    exact le_trans (runDispatch_length dispatchTable q t l h)
      (dispatch_at_most_one q hq)

/-- A table carrying exactly the cart-behavior column. -/
def tCart : Table :=
  { cols := ["CartBehavior"], rows := [[("CartBehavior", Cell.str "GROWING")]] }

/-- C2 witness: the cart-behavior block fires for the cart-size question on
`tCart` (so its step is not a silent skip), hence it silently skips the
distinct shipment-status question on any table, and the cart-size question
renders at most one chart. -/
theorem chart_dispatch_keyed_witness :
    entryStep "What proportion of shipments are in transit, delivered and dispatched?"
        tCart entryCartBehavior = Except.ok none ∧
    (runDispatch dispatchTable
        "How does the average cart size evolve over a customer's lifetime (by order number)?"
        tCart = Except.ok [Chart.pieCartBehavior] →
      [Chart.pieCartBehavior].length ≤ 1) :=
  ⟨chart_dispatch_keyed.2.1
      "How does the average cart size evolve over a customer's lifetime (by order number)?"
      (by decide)
      "What proportion of shipments are in transit, delivered and dispatched?"
      (by decide) (by decide) entryCartBehavior (by decide) tCart tCart
      (by decide),
   chart_dispatch_keyed.2.2
      "How does the average cart size evolve over a customer's lifetime (by order number)?"
      (by decide) tCart [Chart.pieCartBehavior]⟩

/-- Question text of the dispatch block at lines 1043-1064. -/
def qFirstOrderPct : String :=
  "Are customers reordering items popular with others in their first order?"

/-- Question text of the dispatch block at lines 902-914. -/
def qCartSize : String :=
  "How does the average cart size evolve over a customer's lifetime (by order number)?"

/-- A non-empty table that lacks the `percentInFirstOrders` column the
block at lines 1043-1064 reads. -/
def tNoPct : Table :=
  { cols := ["productName"], rows := [[("productName", Cell.str "Bananas")]] }

/-- C4 counterexample: for the matched dispatch block of lines 1043-1064
(which has no column guard), a non-empty result table lacking the
`percentInFirstOrders` column its builder sorts on makes the render raise an
uncaught KeyError — the failure is not caught and does not degrade to
table-only display. -/
theorem chart_failure_uncaught_counterexample :
    runDispatch dispatchTable qFirstOrderPct tNoPct
      = Except.error ("KeyError while rendering: " ++ qFirstOrderPct) := by
  decide

/-- C4 amended: a dispatch block whose guard condition fails (required
column absent, or the table empty where the guard demands otherwise)
silently skips and rendering degrades to table-only with no error; but the
blocks are not wrapped in any try/except, so a block whose builder reads a
column its guard did not check — such as the guardless block of lines
1043-1064 — raises an uncaught error that aborts the page render instead of
degrading to table-only. -/
theorem chart_guard_amended :
    (∀ e ∈ dispatchTable, ∀ q : String, ∀ t : Table,
        ((!e.guardNonempty || !t.isEmpty)
            && e.guardCols.all (fun c => t.hasCol c)) = false →
        entryStep q t e = Except.ok none) ∧
    (∀ t : Table, t.isEmpty = false →
        t.hasCol "percentInFirstOrders" = false →
        runDispatch dispatchTable qFirstOrderPct t
          = Except.error ("KeyError while rendering: " ++ qFirstOrderPct)) := by
  constructor
  · intro e he q t hg
    by_cases hf : fires q e = true
    · simp [entryStep, hf, hg]
    · exact entryStep_not_fires t (Bool.eq_false_iff.mpr hf)
  · intro t hne hcol
    have s1 : fires qFirstOrderPct entryCartBehavior = false := by decide
    have s2 : fires qFirstOrderPct entryDeptProgression = false := by decide
    have s3 : fires qFirstOrderPct entryAisles = false := by decide
    have s4 : fires qFirstOrderPct entryHourDept = false := by decide
    have s5 : fires qFirstOrderPct entryBasketShare = false := by decide
    have s6 : fires qFirstOrderPct entryRetention = false := by decide
    have s7 : fires qFirstOrderPct entryCentralProducts = false := by decide
    have s8 : fires qFirstOrderPct entryTimeSegments = false := by decide
    have s9 : fires qFirstOrderPct entryRetainedUsers = false := by decide
    have s10 : fires qFirstOrderPct entryGateway = false := by decide
    have hf : fires qFirstOrderPct entryFirstOrderPct = true := by decide
    have hgd : ((!entryFirstOrderPct.guardNonempty || !t.isEmpty)
        && entryFirstOrderPct.guardCols.all (fun c => t.hasCol c)) = true := by
      simp [entryFirstOrderPct]
    have hb : entryFirstOrderPct.bodyCols.all (fun c => t.hasCol c) = false := by
      simp [entryFirstOrderPct, List.all_cons, hcol]
    have hstep : entryStep qFirstOrderPct t entryFirstOrderPct
        = Except.error ("KeyError while rendering: " ++ qFirstOrderPct) := by
      unfold entryStep
      rw [if_pos hf, if_pos hgd, if_neg (by simp [hb])]
      rfl
    simp only [dispatchTable]
    rw [runDispatch_skip _ t s1, runDispatch_skip _ t s2,
        runDispatch_skip _ t s3, runDispatch_skip _ t s4,
        runDispatch_skip _ t s5, runDispatch_skip _ t s6,
        runDispatch_skip _ t s7, runDispatch_skip _ t s8,
        runDispatch_skip _ t s9, runDispatch_skip _ t s10]
    simp only [runDispatch, hstep]

/-- A non-empty table with a single unrelated column. -/
def tFoo : Table :=
  { cols := ["foo"], rows := [[("foo", Cell.null)]] }

/-- C4 amended, witness: the guarded cart-behavior block silently skips a
table lacking its `CartBehavior` column, while the guardless block of lines
1043-1064 raises on the same table. -/
theorem chart_guard_amended_witness :
    entryStep qCartSize tFoo entryCartBehavior = Except.ok none ∧
    runDispatch dispatchTable qFirstOrderPct tFoo
      = Except.error ("KeyError while rendering: " ++ qFirstOrderPct) :=
  ⟨chart_guard_amended.1 entryCartBehavior (by decide) qCartSize tFoo
      (by decide),
   chart_guard_amended.2 tFoo (by decide) (by decide)⟩

/-- Python `key.split(" | ")`: left-to-right non-overlapping scan for the
separator, on character lists; `acc` holds the current component reversed. -/
def splitBar (acc : List Char) : List Char → List (List Char)
  | [] => [acc.reverse]
  | ' ' :: '|' :: ' ' :: rest => acc.reverse :: splitBar [] rest
  | c :: rest => splitBar (c :: acc) rest

/-- Sheet name computed at line 1364:
`key.split(" | ")[-1][:31]` — the LAST " | "-separated component of the
composite key (the question text), truncated to 31 characters. -/
def sheetNameOf (key : String) : String :=
  String.mk (((splitBar [] key.data).getLastD []).take 31)

/-- Python `key.endswith("_notes")`, line 1363. -/
def endsWithNotes (key : String) : Bool :=
  "_notes".data.isSuffixOf key.data

/-- The `all_data` dict built at lines 1360-1365: fold over the stored
responses in insertion order, skipping keys ending in "_notes", keying each
table by its computed sheet name (every stored value is a DataFrame in this
embedding, so the isinstance test is always true). The Excel writer of
lines 1382-1384 then emits exactly one sheet per `all_data` entry with the
table written verbatim, so `all_data` is the sheet list. -/
def buildAllData (responses : List (String × Table)) : List (String × Table) :=
  responses.foldl
    (fun d kv =>
      if endsWithNotes kv.1 then d else dictInsert d (sheetNameOf kv.1) kv.2)
    []

/-- Truncation of a string to the 31-character spreadsheet bound. -/
def truncate31 (s : String) : String := String.mk (s.data.take 31)

lemma dictInsert_not_found (d : List (String × Table)) (k : String) (v : Table)
    (h : d.any (fun p => p.1 == k) = false) :
    dictInsert d k v = d ++ [(k, v)] := by
  simp [dictInsert, h]

lemma buildAllData_go (rs : List (String × Table)) (d : List (String × Table))
    (hn : ∀ kv ∈ rs, endsWithNotes kv.1 = false)
    (hd : ∀ kv ∈ rs, d.any (fun p => p.1 == sheetNameOf kv.1) = false)
    (hnd : (rs.map (fun kv => sheetNameOf kv.1)).Nodup) :
    rs.foldl
        (fun d kv =>
          if endsWithNotes kv.1 then d
          else dictInsert d (sheetNameOf kv.1) kv.2) d
      = d ++ rs.map (fun kv => (sheetNameOf kv.1, kv.2)) := by
  induction rs generalizing d with
  | nil => simp
  | cons kv rs ih =>
      have hkv : endsWithNotes kv.1 = false := hn kv (List.mem_cons_self _ _)
      have hdk : d.any (fun p => p.1 == sheetNameOf kv.1) = false :=
        hd kv (List.mem_cons_self _ _)
      have hnd2 : (sheetNameOf kv.1 :: rs.map (fun kv => sheetNameOf kv.1)).Nodup := by
        simpa using hnd
      have hhead : sheetNameOf kv.1 ∉ rs.map (fun kv => sheetNameOf kv.1) :=
        (List.nodup_cons.mp hnd2).1
      simp only [List.foldl_cons, hkv, Bool.false_eq_true, if_false]
      rw [dictInsert_not_found d _ kv.2 hdk]
      rw [ih (d ++ [(sheetNameOf kv.1, kv.2)]) ?_ ?_ ?_]
      · simp
      · intro kv2 h2
        exact hn kv2 (List.mem_cons_of_mem _ h2)
      · intro kv2 h2
        have hne : (sheetNameOf kv.1 == sheetNameOf kv2.1) = false := by
          have : sheetNameOf kv.1 ≠ sheetNameOf kv2.1 := by
            intro he
            exact hhead (he ▸ List.mem_map_of_mem _ h2)
          simpa using this
        simp [List.any_append, hd kv2 (List.mem_cons_of_mem _ h2), hne]
      · exact (List.nodup_cons.mp hnd2).2

/-- C8 counterexample: for the stored result of the cart-size question, the
sheet name the export builds is the first 31 characters of the question
text — the last " | "-separated component of the key — and differs from the
section name ("Customer Journey Evolution") truncated to the 31-character
bound, contradicting the claim that names derive from the section name. -/
theorem sheet_name_from_question_counterexample :
    sheetNameOf (compositeKey "Customer Lifecycle & Behavior"
        "Customer Journey Evolution" qCartSize)
      = "How does the average cart size " ∧
    sheetNameOf (compositeKey "Customer Lifecycle & Behavior"
        "Customer Journey Evolution" qCartSize)
      ≠ truncate31 "Customer Journey Evolution" := by
  decide

set_option maxRecDepth 1000000 in
/-- C8 amended: for every catalog entry, the sheet name of its stored
result is the question text (not the section name) truncated to 31
characters; across the whole catalog these names are pairwise distinct (all
30 question texts already differ within their first 31 characters), and for
any stored responses whose keys do not end in "_notes" and whose sheet
names are distinct, the export yields exactly one sheet per stored result,
in order, with the table written verbatim. -/
theorem export_sheets_amended :
    (∀ p ∈ catalog,
        sheetNameOf (compositeKey p.1 p.2.1 p.2.2) = truncate31 p.2.2) ∧
    (∀ p1 ∈ catalog, ∀ p2 ∈ catalog, p1 ≠ p2 →
        sheetNameOf (compositeKey p1.1 p1.2.1 p1.2.2)
          ≠ sheetNameOf (compositeKey p2.1 p2.2.1 p2.2.2)) ∧
    (∀ rs : List (String × Table),
        (∀ kv ∈ rs, endsWithNotes kv.1 = false) →
        (rs.map (fun kv => sheetNameOf kv.1)).Nodup →
        buildAllData rs = rs.map (fun kv => (sheetNameOf kv.1, kv.2))) := by
  refine ⟨by decide, by decide, ?_⟩
  intro rs hn hnd
  unfold buildAllData
  rw [buildAllData_go rs [] hn (by intro kv h; simp) hnd]
  simp

/-- Stored responses for the export witness: two catalog results. -/
def rsW : List (String × Table) :=
  [(compositeKey "Customer Lifecycle & Behavior" "Customer Journey Evolution"
      qCartSize, tableA),
   (compositeKey "Performance Metrics & Sales KPIs"
      "Resource allocation and marketing focus"
      "Which departments contribute most to overall order volume?", tFoo)]

/-- C8 amended, witness: the first catalog entry's sheet name is its
question truncated to 31 characters, and exporting two stored results
yields exactly those two sheets verbatim. -/
theorem export_sheets_amended_witness :
    sheetNameOf (compositeKey "Customer Lifecycle & Behavior"
        "Customer Journey Evolution" qCartSize) = truncate31 qCartSize ∧
    buildAllData rsW = rsW.map (fun kv => (sheetNameOf kv.1, kv.2)) :=
  ⟨export_sheets_amended.1
      ("Customer Lifecycle & Behavior", "Customer Journey Evolution", qCartSize)
      (by decide),
   export_sheets_amended.2.2 rsW (by decide) (by decide)⟩
